import Mathlib

/-!
Verification of the service-worker offline-caching agent of this repository.

The program is `src/sw.js`, a browser service worker.  The development below
is a shallow embedding of its event handlers as pure Lean functions:

* the Cache Store (`caches` / `cache`) becomes an association list from URL
  keys to `Response` values, threaded explicitly through every handler;
* promise chains become ordinary sequencing; a rejected promise becomes the
  `Except.error` constructor; `try`/`catch` with re-`throw` becomes a
  function returning its outcome in `Except`;
* the network (`fetch`) and body parsing (`response.json()`) are external
  collaborators and enter as oracle parameters.

`src/unnamed/part_000` is an earlier revision of the same worker
(cache version `v1.0.0` as opposed to `v1.0.1`); the embedding follows the
current `src/sw.js`.
-/

namespace SW

/-- A network response as the worker observes it: `status`, the response
classification `type` (`"basic"`, `"cors"`, `"opaque"`, `"default"`, ...),
the `Content-Type` header when present, and the body bytes (modelled as a
`String`).  These are the only parts of a response the worker reads. -/
structure Response where
  status : Nat
  rtype : String
  contentType : Option String
  body : String
deriving DecidableEq, Repr

/-- A request as the worker observes it: URL, method, and the `accept`
header when present (`headers.get` of an absent header yields `null`,
modelled as `none`).  These are the only parts the worker reads. -/
structure Request where
  url : String
  method : String
  accept : Option String
deriving DecidableEq, Repr

/-- The Cache Store of one cache version: request identifiers (URLs) mapped
to stored responses.  An association list; `cachePut` keeps at most one
entry per key. -/
def Cache := List (String × Response)
deriving DecidableEq, Repr

instance : Membership (String × Response) Cache := inferInstanceAs (Membership _ (List _))

/-- Embedding of `cache.match` restricted to a URL key: the first entry stored under the
URL, if any. -/
def cacheLookup (cache : Cache) (url : String) : Option Response :=
  match cache with
  | [] => none
  | (k, r) :: rest => if k = url then some r else cacheLookup rest url

/-- Embedding of `cache.delete(url)`: remove every entry stored under the key. -/
def cacheDelete (cache : Cache) (url : String) : Cache :=
  match cache with
  | [] => []
  | (k, r) :: rest =>
      if k = url then cacheDelete rest url else (k, r) :: cacheDelete rest url

/-- Embedding of `cache.put(url, response)`: store `r` under the key, replacing any
previous entry (last write wins). -/
def cachePut (cache : Cache) (url : String) (r : Response) : Cache :=
  (url, r) :: cacheDelete cache url

/-- Embedding of `caches.match(request)`: the Cache API matches only `GET` requests
(a non-`GET` request never matches without `ignoreMethod`), then looks the
request URL up in the store. -/
def cacheMatch (cache : Cache) (req : Request) : Option Response :=
  if req.method = "GET" then cacheLookup cache req.url else none

/-- Test that `p` is a prefix of `s`, on character lists. -/
def listIsPrefixOfB : List Char → List Char → Bool
  | [], _ => true
  | _ :: _, [] => false
  | a :: p, b :: s => a == b && listIsPrefixOfB p s

/-- Test that `p` occurs as a contiguous run inside `s`, on character lists. -/
def listHasInfixB : List Char → List Char → Bool
  | s, p =>
      listIsPrefixOfB p s ||
        match s with
        | [] => false
        | _ :: rest => listHasInfixB rest p

/-- Prefix test: `String.prototype.startsWith` of JavaScript. -/
def strStartsWith (s pre : String) : Bool :=
  listIsPrefixOfB pre.data s.data

/-- Substring test: `String.prototype.includes` of JavaScript. -/
def strIncludes (s pat : String) : Bool :=
  listHasInfixB s.data pat.data

@[simp]
theorem cacheLookup_nil (url : String) : cacheLookup [] url = none := rfl

@[simp]
theorem cacheLookup_cons (k : String) (r : Response) (rest : List (String × Response))
    (url : String) :
    cacheLookup ((k, r) :: rest) url =
      if k = url then some r else cacheLookup rest url := rfl

@[simp]
theorem cacheLookup_delete_self (cache : Cache) (url : String) :
    cacheLookup (cacheDelete cache url) url = none := by
  induction cache with
  | nil => rfl
  | cons e rest ih =>
      obtain ⟨k, r⟩ := e
      by_cases h : k = url <;> simp [cacheDelete, h, ih]

theorem cacheLookup_delete_ne (cache : Cache) (url v : String) (h : v ≠ url) :
    cacheLookup (cacheDelete cache url) v = cacheLookup cache v := by
  induction cache with
  | nil => rfl
  | cons e rest ih =>
      obtain ⟨k, r⟩ := e
      by_cases hk : k = url
      · subst hk
        simp [cacheDelete, Ne.symm h, ih]
      · simp only [cacheDelete, if_neg hk, cacheLookup_cons]
        by_cases hv : k = v
        · simp [hv]
        · simp [hv, ih]

@[simp]
theorem cacheLookup_put_self (cache : Cache) (url : String) (r : Response) :
    cacheLookup (cachePut cache url r) url = some r := by
  simp [cachePut]

theorem cacheLookup_put_ne (cache : Cache) (url v : String) (r : Response) (h : v ≠ url) :
    cacheLookup (cachePut cache url r) v = cacheLookup cache v := by
  simp [cachePut, Ne.symm h, cacheLookup_delete_ne cache url v h]

/-! ## Configuration constants of `src/sw.js` -/

def CACHE_NAME : String := "emergency-system-v1.0.1"

def OFFLINE_URL : String := "/offline.html"

def STATIC_CACHE_URLS : List String :=
  ["/", "/index.html", "/offline.html", "/manifest.json"]

def emergencyDataKey : String := "/emergency-data.json"

def studentScansKey : String := "/student-scans.json"

/-- The inline offline page synthesized by the fetch handler when the network
fails on an HTML request and `/offline.html` is not cached
(`src/sw.js` lines 125-177). -/
def offlineFallbackHtml : String :=
  "
                  <!DOCTYPE html>
                  <html lang=\"en\">
                  <head>
                    <meta charset=\"UTF-8\">
                    <meta name=\"viewport\" content=\"width=device-width, initial-scale=1.0\">
                    <title>Offline - Emergency System</title>
                    <style>
                      body \x7b
                        font-family: -apple-system, BlinkMacSystemFont, 'Segoe UI', Roboto, sans-serif;
                        background: linear-gradient(135deg, #667eea 0%, #764ba2 100%);
                        min-height: 100vh;
                        display: flex;
                        align-items: center;
                        justify-content: center;
                        margin: 0;
                        color: #333;
                      \x7d
                      .offline-container \x7b
                        background: rgba(255, 255, 255, 0.95);
                        padding: 40px;
                        border-radius: 20px;
                        text-align: center;
                        max-width: 400px;
                        box-shadow: 0 20px 40px rgba(0, 0, 0, 0.1);
                      \x7d
                      .offline-icon \x7b font-size: 64px; margin-bottom: 20px; \x7d
                      h1 \x7b color: #dc2626; margin-bottom: 20px; \x7d
                      .btn \x7b
                        background: #3b82f6;
                        color: white;
                        border: none;
                        padding: 12px 24px;
                        border-radius: 8px;
                        cursor: pointer;
                        font-size: 16px;
                        margin: 10px;
                        text-decoration: none;
                        display: inline-block;
                      \x7d
                    </style>
                  </head>
                  <body>
                    <div class=\"offline-container\">
                      <div class=\"offline-icon\">📱</div>
                      <h1>You're Offline</h1>
                      <p>The Emergency System is working offline. All features are available.</p>
                      <button class=\"btn\" onclick=\"window.history.back()\">Go Back</button>
                      <button class=\"btn\" onclick=\"location.reload()\">Retry Connection</button>
                    </div>
                  </body>
                  </html>
                "

/-- The synthesized offline `Response`: `new Response(html, {headers:
{'Content-Type': 'text/html', 'Cache-Control': 'no-cache'}})` — a freshly
constructed response has status `200` and type `\"default\"`. -/
def offlineFallbackResponse : Response :=
  { status := 200
    rtype := "default"
    contentType := some "text/html"
    body := offlineFallbackHtml }

/-! ## The fetch interceptor (`src/sw.js` lines 67-191) -/

/-- Embedding of `event.request.headers.get('accept')?.includes('text/html')` with the
optional chaining of `src/sw.js` line 118: an absent `accept` header gives
`null`, and `null?.includes(...)` is `undefined`, i.e. falsy. -/
def acceptIncludesHtml (req : Request) : Bool :=
  match req.accept with
  | none => false
  | some a => strIncludes a "text/html"

/-- What one interception produces: the settled value of the promise passed
to `event.respondWith` (`Except.error` when the handler re-throws the
network error), the Cache Store afterwards, and whether `fetch` was
invoked. -/
instance : DecidableEq (Except String Response) := fun a b =>
  match a, b with
  | .ok r, .ok s =>
      if h : r = s then .isTrue (by rw [h]) else .isFalse (by simp [h])
  | .error e, .error f =>
      if h : e = f then .isTrue (by rw [h]) else .isFalse (by simp [h])
  | .ok _, .error _ => .isFalse (by simp)
  | .error _, .ok _ => .isFalse (by simp)

structure FetchOutcome where
  response : Except String Response
  cache : Cache
  networkCalled : Bool
deriving DecidableEq, Repr

/-- The fetch event listener of `src/sw.js` (lines 67-191).

`origin` is `self.location.origin`; `net` is the `fetch` collaborator, whose
`Except.error` case is a rejected fetch promise.  The result is `none` when
the listener returns without calling `event.respondWith` (non-HTTP or
cross-origin request passes through unmodified).

Branches, in source order:
1. cache hit (`caches.match`): return the cached response; no fetch, no
   write;
2. network success: if the response fails the validity check
   (`status !== 200 || type !== 'basic'`; the `!networkResponse` disjunct is
   vacuous, a fulfilled fetch always yields a response) it is returned
   unmodified; otherwise it is returned and, when the request method is
   `GET`, a clone is stored under the request URL (the fire-and-forget
   write, whose own failure is only logged);
3. network failure on an HTML-accepting request: the cached `/offline.html`
   if present, else the synthesized inline offline page;
4. network failure otherwise: `throw error` — the failure propagates. -/
def handleFetch (origin : String) (net : Request → Except String Response)
    (cache : Cache) (req : Request) : Option FetchOutcome :=
  if ¬ (strStartsWith req.url "http") then none
  else if ¬ (strStartsWith req.url origin) then none
  else some (
    match cacheMatch cache req with
    | some cached => { response := .ok cached, cache := cache, networkCalled := false }
    | none =>
        match net req with
        | .ok nr =>
            if nr.status ≠ 200 ∨ nr.rtype ≠ "basic" then
              { response := .ok nr, cache := cache, networkCalled := true }
            else
              { response := .ok nr
                cache := if req.method = "GET" then cachePut cache req.url nr else cache
                networkCalled := true }
        | .error e =>
            if acceptIncludesHtml req then
              match cacheLookup cache OFFLINE_URL with
              | some off => { response := .ok off, cache := cache, networkCalled := true }
              | none =>
                  { response := .ok offlineFallbackResponse
                    cache := cache
                    networkCalled := true }
            else
              { response := .error e, cache := cache, networkCalled := true })

/-! ## The install listener (`src/sw.js` lines 13-39) -/

/-- One `cache.add(url).catch(...)` step of the install chain: `net url` is
the fetch-and-store attempt (`none` is a rejected `cache.add`, covering
both a network failure and a non-ok response).  A failure is logged and
swallowed (`return Promise.resolve()`), leaving the store unchanged. -/
def installStep (net : String → Option Response) (cache : Cache) (url : String) : Cache :=
  match net url with
  | some r => cachePut cache url r
  | none => cache

/-- The install event listener: attempt every URL of the asset list
(`Promise.all` over `STATIC_CACHE_URLS.map`), each attempt individually
guarded by a `catch`.  The chain then calls `skipWaiting` and carries a
final `catch`, so the promise given to `event.waitUntil` always resolves:
the worker always reaches Installed, which `Except.ok` records. -/
def handleInstall (urls : List String) (net : String → Option Response)
    (cache : Cache) : Except String Cache :=
  .ok (urls.foldl (installStep net) cache)

/-! ## The activate listener (`src/sw.js` lines 42-64) -/

/-- The activate event listener, acting on the set of existing cache version
names (`caches.keys()`): every name different from `CACHE_NAME` is passed to
`caches.delete`; the surviving store is the names not deleted.
`clients.claim()` does not touch the Cache Store. -/
def handleActivate (versions : List String) : List String :=
  versions.filter (fun name => ¬ (name ≠ CACHE_NAME))

/-! ## The message listener (`src/sw.js` lines 263-275) -/

/-- A message from the application, per the inbound protocol.  The payload
of `CACHE_EMERGENCY_DATA` is modelled after `JSON.stringify(payload)`: the
serialized bytes that reach the Cache Store. -/
inductive SWMessage where
  | cacheEmergencyData (payload : String)
  | skipWaitingMsg
  | otherMsg
deriving DecidableEq, Repr

/-- Embedding of `new Response(JSON.stringify(event.data.payload))`: a constructed
response with default status `200`, type `\"default\"`, and no declared
content type. -/
def mkPayloadResponse (payload : String) : Response :=
  { status := 200, rtype := "default", contentType := none, body := payload }

/-- The message event listener: `CACHE_EMERGENCY_DATA` writes the stringified
payload under the reserved key `/emergency-data.json`; `SKIP_WAITING` and
anything else leave the Cache Store unchanged. -/
def handleMessage (msg : SWMessage) (cache : Cache) : Cache :=
  match msg with
  | .cacheEmergencyData payload => cachePut cache emergencyDataKey (mkPayloadResponse payload)
  | .skipWaitingMsg => cache
  | .otherMsg => cache

/-! ## The sync queue (`src/sw.js` lines 194-202, 278-336) -/

/-- The body of `syncEmergencyData` / `syncStudentScans`, generic in the
reserved key.  `parse` is the `cachedData.json()` collaborator (it rejects
on a malformed body).  The `try`/`catch` logs and re-throws, so a failure
of any awaited step surfaces as `Except.error`; the only Cache Store
mutation, `cache.delete`, runs after every fallible step succeeded, so an
erroring run returns the store unchanged.  An absent entry is a no-op
success. -/
def syncReservedKey (key : String) (parse : String → Except String Unit)
    (cache : Cache) : Except String Unit × Cache :=
  match cacheLookup cache key with
  | none => (.ok (), cache)
  | some entry =>
      match parse entry.body with
      | .error e => (.error e, cache)
      | .ok () => (.ok (), cacheDelete cache key)

/-- Embedding of `syncEmergencyData` (`src/sw.js` lines 278-299): flush the pending item
under `/emergency-data.json`. -/
def syncEmergencyData (parse : String → Except String Unit) (cache : Cache) :
    Except String Unit × Cache :=
  syncReservedKey emergencyDataKey parse cache

/-- Embedding of `syncStudentScans` (`src/sw.js` lines 301-322): flush the pending item
under `/student-scans.json`. -/
def syncStudentScans (parse : String → Except String Unit) (cache : Cache) :
    Except String Unit × Cache :=
  syncReservedKey studentScansKey parse cache

/-- The sync event listener (`src/sw.js` lines 194-202): the event tag
selects which flush runs; a tag with no registered handler does nothing. -/
def handleSync (tag : String) (parse : String → Except String Unit)
    (cache : Cache) : Except String Unit × Cache :=
  if tag = "emergency-data-sync" then syncEmergencyData parse cache
  else if tag = "student-scans-sync" then syncStudentScans parse cache
  else (.ok (), cache)

/-- The periodicsync event listener (`src/sw.js` lines 325-336): the tag
`emergency-system-sync` runs `Promise.all([syncEmergencyData(),
syncStudentScans()])`.  Both flushes run regardless of the other's outcome
and touch distinct reserved keys; the embedding sequences them, and the
combined outcome errors when either does (`Promise.all` rejection). -/
def handlePeriodicSync (tag : String) (parse1 parse2 : String → Except String Unit)
    (cache : Cache) : Except String Unit × Cache :=
  if tag = "emergency-system-sync" then
    match syncEmergencyData parse1 cache with
    | (o1, c1) =>
        match syncStudentScans parse2 c1 with
        | (o2, c2) =>
            ((match o1 with
              | .error e => .error e
              | .ok () => o2), c2)
  else (.ok (), cache)

/-! ## Sample values used by the witness theorems -/

def sampleOrigin : String := "https://school.example"

def sampleUrl : String := "https://school.example/app.js"

def wResp : Response :=
  { status := 200, rtype := "basic", contentType := some "text/html", body := "ok" }

def wRespPlain : Response :=
  { status := 200, rtype := "basic", contentType := none, body := "data" }

def wCache : Cache := [(sampleUrl, wResp)]

def wGetReq : Request := { url := sampleUrl, method := "GET", accept := none }

def wHtmlReq : Request := { url := sampleUrl, method := "GET", accept := some "text/html" }

def wJsonReq : Request := { url := sampleUrl, method := "GET", accept := some "application/json" }

def netDown : Request → Except String Response := fun _ => .error "net down"

def netServe (r : Response) : Request → Except String Response := fun _ => .ok r

/-! ## Claims about the fetch interceptor -/

/-- C1: for every intercepted same-origin GET request whose identifier is
present in the Cache Store, the fetch interceptor returns the cached entry
and issues no network request. -/
theorem c1_cache_hit_served_without_network
    (origin : String) (net : Request → Except String Response) (cache : Cache)
    (req : Request) (r : Response)
    (hhttp : strStartsWith req.url "http" = true)
    (horigin : strStartsWith req.url origin = true)
    (hget : req.method = "GET")
    (hhit : cacheLookup cache req.url = some r) :
    handleFetch origin net cache req =
      some { response := .ok r, cache := cache, networkCalled := false } := by
  simp [handleFetch, hhttp, horigin, cacheMatch, hget, hhit]

theorem c1_witness :
    handleFetch sampleOrigin netDown wCache
        { url := sampleUrl, method := "GET", accept := some "text/html" } =
      some { response := .ok wResp, cache := wCache, networkCalled := false } :=
  c1_cache_hit_served_without_network sampleOrigin netDown wCache _ wResp rfl rfl rfl rfl

/-- C9: for every intercepted request served from a Cache Store hit, the
fetch interceptor performs no cache write: the entire Cache Store is
unchanged by the interception. -/
theorem c9_cache_hit_performs_no_write
    (origin : String) (net : Request → Except String Response) (cache : Cache)
    (req : Request) (r : Response) (out : FetchOutcome)
    (hhttp : strStartsWith req.url "http" = true)
    (horigin : strStartsWith req.url origin = true)
    (hhit : cacheMatch cache req = some r)
    (hout : handleFetch origin net cache req = some out) :
    out.cache = cache := by
  simp [handleFetch, hhttp, horigin, hhit] at hout
  rw [← hout]

theorem c9_witness :
    ({ response := .ok wResp, cache := wCache, networkCalled := false } : FetchOutcome).cache =
      wCache :=
  c9_cache_hit_performs_no_write sampleOrigin netDown wCache
    { url := sampleUrl, method := "GET", accept := some "text/html" } wResp _
    rfl rfl rfl rfl

/-- C7: for every intercepted non-HTML request (declared accept type does
not include HTML) whose network fetch fails and which has no Cache Store
hit, the interceptor propagates the network failure to the caller as a
failure. -/
theorem c7_non_html_network_failure_propagates
    (origin : String) (net : Request → Except String Response) (cache : Cache)
    (req : Request) (e : String)
    (hhttp : strStartsWith req.url "http" = true)
    (horigin : strStartsWith req.url origin = true)
    (hmiss : cacheMatch cache req = none)
    (hnet : net req = .error e)
    (hnothtml : acceptIncludesHtml req = false) :
    handleFetch origin net cache req =
      some { response := .error e, cache := cache, networkCalled := true } := by
  simp [handleFetch, hhttp, horigin, hmiss, hnet, hnothtml]

theorem c7_witness :
    handleFetch sampleOrigin netDown [] wJsonReq =
      some { response := .error "net down", cache := [], networkCalled := true } :=
  c7_non_html_network_failure_propagates sampleOrigin netDown [] wJsonReq "net down"
    rfl rfl rfl rfl rfl

/-- C10: in the fetch interceptor of `src/sw.js`, a request whose network
fetch fails and which carries no accept header at all does not crash the
handler: the absent header is treated as non-HTML via the optional-chained
header lookup, and the failure is propagated without a secondary
exception — the handler still produces a definite outcome. -/
theorem c10_absent_accept_header_treated_as_non_html
    (origin : String) (net : Request → Except String Response) (cache : Cache)
    (req : Request) (e : String)
    (hacc : req.accept = none)
    (hhttp : strStartsWith req.url "http" = true)
    (horigin : strStartsWith req.url origin = true)
    (hmiss : cacheMatch cache req = none)
    (hnet : net req = .error e) :
    acceptIncludesHtml req = false ∧
    handleFetch origin net cache req =
      some { response := .error e, cache := cache, networkCalled := true } := by
  have hnothtml : acceptIncludesHtml req = false := by
    simp [acceptIncludesHtml, hacc]
  exact ⟨hnothtml, by simp [handleFetch, hhttp, horigin, hmiss, hnet, hnothtml]⟩

theorem c10_witness :
    acceptIncludesHtml wGetReq = false ∧
    handleFetch sampleOrigin netDown [] wGetReq =
      some { response := .error "net down", cache := [], networkCalled := true } :=
  c10_absent_accept_header_treated_as_non_html sampleOrigin netDown [] wGetReq "net down"
    rfl rfl rfl rfl rfl

/-- C3: for every intercepted HTML request (declared accept type includes
HTML) whose network fetch fails and whose identifier misses the cache, the
interceptor returns a response with content-type HTML — the cached
offline-fallback entry if present (HTML by the stated hypothesis on the
reserved entry), otherwise the synthesized inline offline page — and never
propagates the failure. -/
theorem c3_html_network_failure_gets_html_response
    (origin : String) (net : Request → Except String Response) (cache : Cache)
    (req : Request) (e : String)
    (hhttp : strStartsWith req.url "http" = true)
    (horigin : strStartsWith req.url origin = true)
    (hmiss : cacheMatch cache req = none)
    (hnet : net req = .error e)
    (hhtml : acceptIncludesHtml req = true)
    (hoff : ∀ r, cacheLookup cache OFFLINE_URL = some r →
        strIncludes (r.contentType.getD "") "text/html" = true) :
    ∃ resp, handleFetch origin net cache req =
        some { response := .ok resp, cache := cache, networkCalled := true } ∧
      strIncludes (resp.contentType.getD "") "text/html" = true ∧
      (cacheLookup cache OFFLINE_URL = some resp ∨ resp = offlineFallbackResponse) := by
  cases hcase : cacheLookup cache OFFLINE_URL with
  | some off =>
      refine ⟨off, ?_, hoff off hcase, .inl rfl⟩
      simp [handleFetch, hhttp, horigin, hmiss, hnet, hhtml, hcase]
  | none =>
      refine ⟨offlineFallbackResponse, ?_, rfl, .inr rfl⟩
      simp [handleFetch, hhttp, horigin, hmiss, hnet, hhtml, hcase]

theorem c3_witness :
    ∃ resp, handleFetch sampleOrigin netDown [] wHtmlReq =
        some { response := .ok resp, cache := [], networkCalled := true } ∧
      strIncludes (resp.contentType.getD "") "text/html" = true ∧
      (cacheLookup ([] : Cache) OFFLINE_URL = some resp ∨ resp = offlineFallbackResponse) :=
  c3_html_network_failure_gets_html_response sampleOrigin netDown [] wHtmlReq "net down"
    rfl rfl rfl rfl rfl (fun r h => by simp [cacheLookup] at h)

/-- C2: for every intercepted request, the fetch interceptor writes a new
entry into the Cache Store only when the network response has status 200
and type "basic" and the request method is GET; responses failing any of
these conditions are returned to the caller but never stored. -/
theorem c2_only_valid_get_responses_stored
    (origin : String) (net : Request → Except String Response) (cache : Cache)
    (req : Request) (out : FetchOutcome)
    (hhttp : strStartsWith req.url "http" = true)
    (horigin : strStartsWith req.url origin = true)
    (hout : handleFetch origin net cache req = some out) :
    (out.cache ≠ cache →
      ∃ nr, net req = .ok nr ∧ nr.status = 200 ∧ nr.rtype = "basic" ∧
        req.method = "GET" ∧ out.cache = cachePut cache req.url nr ∧
        out.response = .ok nr) ∧
    (∀ nr, cacheMatch cache req = none → net req = .ok nr →
      out.response = .ok nr ∧
      (¬ (nr.status = 200 ∧ nr.rtype = "basic" ∧ req.method = "GET") →
        out.cache = cache)) := by
  cases hm : cacheMatch cache req with
  | some c =>
      have hval : handleFetch origin net cache req =
          some { response := .ok c, cache := cache, networkCalled := false } := by
        simp [handleFetch, hhttp, horigin, hm]
      rw [hval] at hout
      injection hout with hout
      subst hout
      exact ⟨fun h => absurd rfl h, fun nr hmiss => absurd hmiss (by simp)⟩
  | none =>
      cases hn : net req with
      | ok nr =>
          by_cases hv : nr.status ≠ 200 ∨ nr.rtype ≠ "basic"
          · have hval : handleFetch origin net cache req =
                some { response := .ok nr, cache := cache, networkCalled := true } := by
              simp only [handleFetch]
              rw [if_neg (by simp [hhttp]), if_neg (by simp [horigin])]
              rw [hm, hn]
              simp [hv]
            rw [hval] at hout
            injection hout with hout
            subst hout
            refine ⟨fun h => absurd rfl h, fun nr' _ hn' => ?_⟩
            injection hn' with hn'
            subst hn'
            exact ⟨rfl, fun _ => rfl⟩
          · push_neg at hv
            obtain ⟨hs, ht⟩ := hv
            by_cases hg : req.method = "GET"
            · have hval : handleFetch origin net cache req =
                  some { response := .ok nr, cache := cachePut cache req.url nr,
                         networkCalled := true } := by
                simp only [handleFetch]
                rw [if_neg (by simp [hhttp]), if_neg (by simp [horigin])]
                rw [hm, hn]
                simp [hs, ht, hg]
              rw [hval] at hout
              injection hout with hout
              subst hout
              refine ⟨fun _ => ⟨nr, rfl, hs, ht, hg, rfl, rfl⟩, fun nr' _ hn' => ?_⟩
              injection hn' with hn'
              subst hn'
              exact ⟨rfl, fun hc => absurd ⟨hs, ht, hg⟩ hc⟩
            · have hval : handleFetch origin net cache req =
                  some { response := .ok nr, cache := cache, networkCalled := true } := by
                simp only [handleFetch]
                rw [if_neg (by simp [hhttp]), if_neg (by simp [horigin])]
                rw [hm, hn]
                simp [hs, ht, hg]
              rw [hval] at hout
              injection hout with hout
              subst hout
              refine ⟨fun h => absurd rfl h, fun nr' _ hn' => ?_⟩
              injection hn' with hn'
              subst hn'
              exact ⟨rfl, fun _ => rfl⟩
      | error e =>
          have hcachesame : ∀ o : FetchOutcome,
              handleFetch origin net cache req = some o → o.cache = cache := by
            intro o ho
            simp only [handleFetch] at ho
            rw [if_neg (by simp [hhttp]), if_neg (by simp [horigin])] at ho
            rw [hm, hn] at ho
            by_cases hh : acceptIncludesHtml req = true
            · cases hoc : cacheLookup cache OFFLINE_URL with
              | some off =>
                  simp [hh, hoc] at ho
                  rw [← ho]
              | none =>
                  simp [hh, hoc] at ho
                  rw [← ho]
            · simp [hh] at ho
              rw [← ho]
          have h1 := hcachesame out hout
          exact ⟨fun h => absurd h1 h, fun nr _ hn' => Except.noConfusion hn'⟩

def wOut2 : FetchOutcome :=
  { response := .ok wResp, cache := cachePut [] sampleUrl wResp, networkCalled := true }

theorem c2_witness :
    ∃ nr, netServe wResp wGetReq = .ok nr ∧ nr.status = 200 ∧ nr.rtype = "basic" ∧
      wGetReq.method = "GET" ∧ wOut2.cache = cachePut [] wGetReq.url nr ∧
      wOut2.response = .ok nr :=
  (c2_only_valid_get_responses_stored sampleOrigin (netServe wResp) [] wGetReq wOut2
      rfl rfl rfl).1
    (by simp [wOut2, cachePut, cacheDelete])

/-! ## Claims about the sync queue and message protocol -/

/-- C4: a PendingSyncItem written via the `CACHE_EMERGENCY_DATA` message and
then flushed: if the flush succeeds the entry is absent from the Cache
Store afterward; if the flush fails the entry remains present and
byte-identical to what was written, and the failure is signaled to the
triggering mechanism (the flush function re-throws, `Except.error`). -/
theorem c4_flush_of_message_written_item
    (cache0 : Cache) (payload : String) (parse : String → Except String Unit) :
    (∀ c2, syncEmergencyData parse (handleMessage (.cacheEmergencyData payload) cache0) =
        (.ok (), c2) → cacheLookup c2 emergencyDataKey = none) ∧
    (∀ e c2, syncEmergencyData parse (handleMessage (.cacheEmergencyData payload) cache0) =
        (.error e, c2) →
      c2 = handleMessage (.cacheEmergencyData payload) cache0 ∧
      cacheLookup c2 emergencyDataKey = some (mkPayloadResponse payload)) := by
  have hlook : cacheLookup (handleMessage (.cacheEmergencyData payload) cache0)
      emergencyDataKey = some (mkPayloadResponse payload) := by
    simp [handleMessage]
  cases hp : parse (mkPayloadResponse payload).body with
  | ok u =>
      cases u
      have hrun : syncEmergencyData parse (handleMessage (.cacheEmergencyData payload) cache0) =
          (.ok (), cacheDelete (handleMessage (.cacheEmergencyData payload) cache0)
            emergencyDataKey) := by
        simp [syncEmergencyData, syncReservedKey, hlook, hp]
      constructor
      · intro c2 hc2
        rw [hrun] at hc2
        injection hc2 with _ hc2
        subst hc2
        exact cacheLookup_delete_self _ _
      · intro e c2 hc2
        rw [hrun] at hc2
        injection hc2 with hbad _
        exact Except.noConfusion hbad
  | error e0 =>
      have hrun : syncEmergencyData parse (handleMessage (.cacheEmergencyData payload) cache0) =
          (.error e0, handleMessage (.cacheEmergencyData payload) cache0) := by
        simp [syncEmergencyData, syncReservedKey, hlook, hp]
      constructor
      · intro c2 hc2
        rw [hrun] at hc2
        injection hc2 with hbad _
        exact Except.noConfusion hbad
      · intro e c2 hc2
        rw [hrun] at hc2
        injection hc2 with he hc2
        subst hc2
        exact ⟨rfl, hlook⟩

theorem c4_witness :
    cacheLookup (cacheDelete (handleMessage (.cacheEmergencyData "42") [])
      emergencyDataKey) emergencyDataKey = none ∧
    (handleMessage (.cacheEmergencyData "42") ([] : Cache) =
        handleMessage (.cacheEmergencyData "42") ([] : Cache) ∧
      cacheLookup (handleMessage (.cacheEmergencyData "42") ([] : Cache)) emergencyDataKey =
        some (mkPayloadResponse "42")) :=
  ⟨(c4_flush_of_message_written_item [] "42" (fun _ => .ok ())).1 _ rfl,
   (c4_flush_of_message_written_item [] "42" (fun _ => .error "boom")).2 "boom" _ rfl⟩

/-! ## Claims about the lifecycle controller -/

theorem installStep_lookup_ne (net : String → Option Response) (cache : Cache)
    (u url : String) (h : url ≠ u) :
    cacheLookup (installStep net cache u) url = cacheLookup cache url := by
  unfold installStep
  cases net u with
  | some r => exact cacheLookup_put_ne cache u url r h
  | none => rfl

theorem foldl_installStep_not_mem (urls : List String) (net : String → Option Response)
    (cache : Cache) (url : String) (h : url ∉ urls) :
    cacheLookup (urls.foldl (installStep net) cache) url = cacheLookup cache url := by
  induction urls generalizing cache with
  | nil => rfl
  | cons u us ih =>
      have hu : url ≠ u := fun hh => h (hh ▸ List.mem_cons_self u us)
      have hus : url ∉ us := fun hh => h (List.mem_cons_of_mem u hh)
      rw [List.foldl_cons, ih (installStep net cache u) hus,
        installStep_lookup_ne net cache u url hu]

theorem foldl_installStep_mem (urls : List String) (net : String → Option Response)
    (cache : Cache) (url : String) (r : Response)
    (hmem : url ∈ urls) (hnet : net url = some r) :
    cacheLookup (urls.foldl (installStep net) cache) url = some r := by
  induction urls generalizing cache with
  | nil => cases hmem
  | cons u us ih =>
      rw [List.foldl_cons]
      by_cases hus : url ∈ us
      · exact ih (installStep net cache u) hus
      · have hu : url = u := by
          rcases List.mem_cons.mp hmem with h | h
          · exact h
          · exact absurd h hus
        subst hu
        rw [foldl_installStep_not_mem us net _ url hus]
        simp [installStep, hnet]

/-- C5: for every static asset list, a fetch-and-store failure of any
single asset during install is skipped and never aborts the install
transition: the install chain still resolves (`Except.ok`, the worker
reaches Installed) and every asset whose fetch-and-store succeeded is
present in the Cache Store. -/
theorem c5_install_tolerates_per_asset_failure
    (urls : List String) (net : String → Option Response) (cache : Cache) :
    ∃ c', handleInstall urls net cache = .ok c' ∧
      ∀ url r, url ∈ urls → net url = some r → cacheLookup c' url = some r :=
  ⟨urls.foldl (installStep net) cache, rfl,
    fun url r hmem hnet => foldl_installStep_mem urls net cache url r hmem hnet⟩

/-- Witness network `wNet`: a network where `/offline.html` is unreachable and every other
asset fetch succeeds. -/
def wNet : String → Option Response :=
  fun u => if u = "/offline.html" then none else some wRespPlain

theorem c5_witness :
    ∃ c', handleInstall STATIC_CACHE_URLS wNet [] = .ok c' ∧
      cacheLookup c' "/index.html" = some wRespPlain := by
  obtain ⟨c', h1, h2⟩ := c5_install_tolerates_per_asset_failure STATIC_CACHE_URLS wNet []
  exact ⟨c', h1, h2 "/index.html" wRespPlain (by simp [STATIC_CACHE_URLS]) rfl⟩

theorem handleActivate_eq_nil (vs : List String) (h : CACHE_NAME ∉ vs) :
    handleActivate vs = [] := by
  induction vs with
  | nil => rfl
  | cons v vs ih =>
      have hv : v ≠ CACHE_NAME := fun hh => h (hh ▸ List.mem_cons_self v vs)
      have hvs : CACHE_NAME ∉ vs := fun hh => h (List.mem_cons_of_mem v hh)
      simp [handleActivate, hv, ih hvs]
      simp [handleActivate] at ih
      exact ih hvs

/-- C6: after the activate handler completes, exactly one cache version —
the current one — survives: every version whose name differs from
`CACHE_NAME` has been deleted. -/
theorem c6_activate_leaves_exactly_current_version
    (versions : List String)
    (hmem : CACHE_NAME ∈ versions)
    (hnodup : versions.Nodup) :
    handleActivate versions = [CACHE_NAME] := by
  induction versions with
  | nil => cases hmem
  | cons v vs ih =>
      rcases List.mem_cons.mp hmem with hv | hv
      · have hnot : CACHE_NAME ∉ vs := by
          rw [List.nodup_cons] at hnodup
          exact hv ▸ hnodup.1
        subst hv
        have hhead : handleActivate (CACHE_NAME :: vs) = CACHE_NAME :: handleActivate vs := by
          simp [handleActivate]
        rw [hhead, handleActivate_eq_nil vs hnot]
      · have hne : v ≠ CACHE_NAME := by
          rintro rfl
          rw [List.nodup_cons] at hnodup
          exact hnodup.1 hv
        have hstep : handleActivate (v :: vs) = handleActivate vs := by
          simp [handleActivate, hne]
        rw [hstep]
        exact ih hv (List.nodup_cons.mp hnodup).2

theorem c6_witness :
    handleActivate ["emergency-system-v1.0.0", CACHE_NAME, "emergency-system-v0.9"] =
      [CACHE_NAME] :=
  c6_activate_leaves_exactly_current_version _ (by simp) (by decide)

/-! ## Claim about sync trigger tags (C8)

The sync event listener maps each tag to a single reserved key, but the
periodicsync listener's tag `emergency-system-sync` flushes both reserved
keys at once, so the claim as stated fails and is amended. -/

theorem syncReservedKey_lookup_ne (key : String) (parse : String → Except String Unit)
    (cache : Cache) (url : String) (h : url ≠ key) :
    cacheLookup (syncReservedKey key parse cache).2 url = cacheLookup cache url := by
  unfold syncReservedKey
  cases hl : cacheLookup cache key with
  | none => rfl
  | some entry =>
      cases hp : parse entry.body with
      | error e => simp [hp]
      | ok u =>
          cases u
          simp [hp, cacheLookup_delete_ne cache key url h]

/-- A Cache Store holding a pending item under each of the two reserved
keys. -/
def wSyncCache : Cache :=
  [(emergencyDataKey, mkPayloadResponse "a"), (studentScansKey, mkPayloadResponse "b")]

/-- C8, counterexample: handling the periodic-sync trigger with tag
`emergency-system-sync` — one single trigger — removes the pending items
under both reserved keys, so a trigger does not always flush only one
reserved key leaving the others untouched. -/
theorem c8_counterexample :
    cacheLookup wSyncCache emergencyDataKey = some (mkPayloadResponse "a") ∧
    cacheLookup wSyncCache studentScansKey = some (mkPayloadResponse "b") ∧
    cacheLookup (handlePeriodicSync "emergency-system-sync"
      (fun _ => .ok ()) (fun _ => .ok ()) wSyncCache).2 emergencyDataKey = none ∧
    cacheLookup (handlePeriodicSync "emergency-system-sync"
      (fun _ => .ok ()) (fun _ => .ok ()) wSyncCache).2 studentScansKey = none :=
  ⟨rfl, rfl, rfl, rfl⟩

/-- C8, amended: every sync-event trigger carries a tag identifying which
single reserved key to flush and handling it touches only that key —
`emergency-data-sync` flushes only `/emergency-data.json`,
`student-scans-sync` only `/student-scans.json`, and an unrecognized tag
leaves the store unchanged; the periodic-sync trigger
`emergency-system-sync`, however, flushes both reserved keys, touching
nothing besides the two of them. -/
theorem c8_sync_tag_flushes_only_its_key
    (tag : String) (parse p2 : String → Except String Unit) (cache : Cache) (url : String) :
    (tag = "emergency-data-sync" → url ≠ emergencyDataKey →
      cacheLookup (handleSync tag parse cache).2 url = cacheLookup cache url) ∧
    (tag = "student-scans-sync" → url ≠ studentScansKey →
      cacheLookup (handleSync tag parse cache).2 url = cacheLookup cache url) ∧
    (tag ≠ "emergency-data-sync" → tag ≠ "student-scans-sync" →
      (handleSync tag parse cache).2 = cache) ∧
    (url ≠ emergencyDataKey → url ≠ studentScansKey →
      cacheLookup (handlePeriodicSync "emergency-system-sync" parse p2 cache).2 url =
        cacheLookup cache url) := by
  refine ⟨?_, ?_, ?_, ?_⟩
  · rintro rfl hurl
    have hh : handleSync "emergency-data-sync" parse cache =
        syncReservedKey emergencyDataKey parse cache := by
      simp [handleSync, syncEmergencyData]
    rw [hh]
    exact syncReservedKey_lookup_ne emergencyDataKey parse cache url hurl
  · rintro rfl hurl
    have hh : handleSync "student-scans-sync" parse cache =
        syncReservedKey studentScansKey parse cache := by
      simp [handleSync, syncStudentScans]
    rw [hh]
    exact syncReservedKey_lookup_ne studentScansKey parse cache url hurl
  · intro h1 h2
    simp [handleSync, h1, h2]
  · intro h1 h2
    have hh : (handlePeriodicSync "emergency-system-sync" parse p2 cache).2 =
        (syncStudentScans p2 (syncEmergencyData parse cache).2).2 := by
      unfold handlePeriodicSync
      rw [if_pos rfl]
    rw [hh]
    unfold syncStudentScans syncEmergencyData
    rw [syncReservedKey_lookup_ne studentScansKey p2 _ url h2]
    exact syncReservedKey_lookup_ne emergencyDataKey parse cache url h1

theorem c8_witness :
    cacheLookup (handleSync "emergency-data-sync" (fun _ => .ok ()) wSyncCache).2
        studentScansKey = cacheLookup wSyncCache studentScansKey :=
  (c8_sync_tag_flushes_only_its_key "emergency-data-sync" (fun _ => .ok ())
      (fun _ => .ok ()) wSyncCache studentScansKey).1 rfl (by decide)

end SW
